import Mathlib

/-!
Verification of the message-relay bot (src/main.py): configuration
resolution, the relay handler handle_message, and the start greeting
handler, embedded shallowly as trace-producing functions.
-/

namespace TelBot

/-- A minimal JSON value, as produced by the json() parse of a response. -/
inductive Json where
  | null : Json
  | bool (b : Bool) : Json
  | num (n : Int) : Json
  | str (s : String) : Json
  | arr (xs : List Json) : Json
  | obj (fields : List (String × Json)) : Json

/-- The single-quote character as a string, kept out of string literals. -/
def sq : String := String.mk [Char.ofNat 39]

/-- The double-quote character as a string, kept out of string literals. -/
def dq : String := String.mk [Char.ofNat 34]

/-- Python string formatting of an optional string: an f-string renders
a missing value as the text "None", and a present string as itself. -/
def pyStr : Option String → String
  | none => "None"
  | some s => s

/-- Python truthiness test `not x` on an optional string: true exactly when
the value is None or the empty string. -/
def pyFalsy : Option String → Bool
  | none => true
  | some s => s = ""

/-- The process environment as seen by the configuration block of
src/main.py (lines 12-17): the raw values of the two environment
variables the relay core reads.  A field holding none means the
variable is unset. -/
structure Env where
  ollamaHostVar : Option String
  ollamaModelVar : Option String

/-- Configuration resolver, src/main.py line 13:
OLLAMA_HOST = os.environ.get("OLLAMA_HOST"). -/
def OLLAMA_HOST (env : Env) : Option String := env.ollamaHostVar

/-- Configuration resolver, src/main.py line 14: the derived endpoint
URL, an f-string gluing the host to the fixed suffix.  When the host is
unset the f-string renders None, giving the malformed value
"None/api/generate". -/
def OLLAMA_GENERATE_ENDPOINT (env : Env) : String :=
  pyStr (OLLAMA_HOST env) ++ "/api/generate"

/-- Configuration resolver, src/main.py line 17:
OLLAMA_MODEL = os.environ.get("OLLAMA_MODEL", "llama3"). -/
def OLLAMA_MODEL (env : Env) : String :=
  (env.ollamaModelVar).getD "llama3"

/-- An inbound non-command text message: the text of update.message and
the id of update.effective_chat. -/
structure InboundMessage where
  text : String
  chatId : Int

/-- The observable effects the handlers perform, in order: the typing
indicator, the HTTP POST to the inference endpoint, error logging, and
the two reply capabilities of the messaging platform.  A replyText
carries the Python value passed to reply_text, which the source does
not coerce, so it is a Json value. -/
inductive Action where
  | sendChatAction (chatId : Int) (action : String) : Action
  | httpPost (url : String) (payload : Json) : Action
  | logError (msg : String) : Action
  | replyText (value : Json) : Action
  | replyHtml (text : String) : Action

/-- Outcome of the requests.post call (plus the subsequent json() parse)
as seen by handle_message: a connection-level failure
(requests.exceptions.ConnectionError), an HTTP response with a status
code, a reason phrase and a body whose JSON parse either succeeds or
fails with a decode-error text, or any other exception with its
rendered text. -/
inductive HttpResult where
  | connectionError : HttpResult
  | response (status : Nat) (reason : String) (body : Except String Json) : HttpResult
  | otherException (msg : String) : HttpResult

/-- The raise_for_status method of a requests response raises
requests.exceptions.HTTPError exactly for 4xx and 5xx status codes
(src/main.py line 79). -/
def raisesForStatus (status : Nat) : Bool :=
  400 ≤ status && status < 600

/-- The text of the requests.exceptions.HTTPError raised by
raise_for_status: "{code} Client Error: {reason} for url: {url}" for
4xx, "{code} Server Error: {reason} for url: {url}" for 5xx. -/
def httpErrorString (status : Nat) (reason : String) (url : String) : String :=
  if 400 ≤ status && status < 500 then
    toString status ++ " Client Error: " ++ reason ++ " for url: " ++ url
  else
    toString status ++ " Server Error: " ++ reason ++ " for url: " ++ url

/-- Python dict.get on the association list of an object's fields. -/
def jsonLookup : List (String × Json) → String → Option Json
  | [], _ => none
  | (k, v) :: rest, key => if k = key then some v else jsonLookup rest key

/-- The Python type name of a JSON value, as it appears in the
AttributeError raised when .get is called on a non-dict. -/
def pyTypeName : Json → String
  | Json.null => "NoneType"
  | Json.bool _ => "bool"
  | Json.num _ => "int"
  | Json.str _ => "str"
  | Json.arr _ => "list"
  | Json.obj _ => "dict"

/-- The fixed configuration-error reply (src/main.py lines 60-62). -/
def configErrorText : String :=
  "Ollama host is not configured. Please set the OLLAMA_HOST environment variable."

/-- The fallback reply when the success body has no response field
(src/main.py line 83). -/
def noResponseText : String := "No response from model."

/-- The JSON payload built for the inference request
(src/main.py lines 71-75). -/
def ollamaPayload (env : Env) (msg : InboundMessage) : Json :=
  Json.obj [("model", Json.str (OLLAMA_MODEL env)),
            ("prompt", Json.str msg.text),
            ("stream", Json.bool false)]

/-- The part of handle_message inside the try block after the POST has
been issued: map the network outcome to log/reply actions
(src/main.py lines 79-103). -/
def handleOutcome (env : Env) (net : HttpResult) : List Action :=
  match net with
  | HttpResult.connectionError =>
      let error_message :=
        "Could not connect to the Ollama server at " ++ pyStr (OLLAMA_HOST env) ++
        ". Please make sure it is running and accessible."
      [Action.logError error_message, Action.replyText (Json.str error_message)]
  | HttpResult.response status reason body =>
      if raisesForStatus status then
        let error_message :=
          "HTTP error from Ollama server: " ++
          httpErrorString status reason (OLLAMA_GENERATE_ENDPOINT env)
        [Action.logError error_message, Action.replyText (Json.str error_message)]
      else
        match body with
        | Except.ok (Json.obj fields) =>
            [Action.replyText ((jsonLookup fields "response").getD (Json.str noResponseText))]
        | Except.ok other =>
            let error_message :=
              "An unexpected error occurred: " ++ sq ++ pyTypeName other ++
              sq ++ " object has no attribute " ++ sq ++ "get" ++ sq
            [Action.logError error_message, Action.replyText (Json.str error_message)]
        | Except.error e =>
            let error_message := "An unexpected error occurred: " ++ e
            [Action.logError error_message, Action.replyText (Json.str error_message)]
  | HttpResult.otherException e =>
      let error_message := "An unexpected error occurred: " ++ e
      [Action.logError error_message, Action.replyText (Json.str error_message)]

/-- The relay handler handle_message (src/main.py lines 54-103) as a
trace of actions: the unset-host guard, then the typing indicator, the
POST to the derived endpoint, and the outcome mapping.  The net
argument is the behaviour of the network for the POST of this message. -/
def handle_message (env : Env) (update : InboundMessage) (net : HttpResult) : List Action :=
  if pyFalsy (OLLAMA_HOST env) then
    [Action.replyText (Json.str configErrorText)]
  else
    Action.sendChatAction update.chatId "typing" ::
    Action.httpPost (OLLAMA_GENERATE_ENDPOINT env) (ollamaPayload env update) ::
    handleOutcome env net

/-- The chat replies contained in a trace, in order.  A replyHtml text
is a string reply. -/
def replies (trace : List Action) : List Json :=
  trace.filterMap fun a =>
    match a with
    | Action.replyText v => some v
    | Action.replyHtml t => some (Json.str t)
    | _ => none

/-- Whether an action is the HTTP POST to the inference endpoint. -/
def isPost : Action → Bool
  | Action.httpPost _ _ => true
  | _ => false

/-- How many inference-endpoint calls a trace performs. -/
def countPosts (trace : List Action) : Nat :=
  (trace.filter isPost).length

/-- The event loop serving a sequence of inbound messages, each paired
with the network behaviour its POST would see: every message is handled
by the same stateless handle_message with the fixed configuration. -/
def processAll (env : Env) (inputs : List (InboundMessage × HttpResult)) : List (List Action) :=
  inputs.map fun p => handle_message env p.1 p.2

/-- A messaging-platform user as start sees it: update.effective_user
with its first_name, optional last_name and numeric id. -/
structure User where
  first_name : String
  last_name : Option String
  id : Int

/-- The full_name property of a telegram User: the first name, followed
by the last name when present. -/
def User.full_name (u : User) : String :=
  match u.last_name with
  | none => u.first_name
  | some l => u.first_name ++ " " ++ l

/-- Action of html.escape on one character (quote=True, as the telegram
helper uses it). -/
def escChar (c : Char) : List Char :=
  if c = '&' then "&amp;".data
  else if c = '<' then "&lt;".data
  else if c = '>' then "&gt;".data
  else if c = Char.ofNat 34 then "&quot;".data
  else if c = Char.ofNat 39 then "&#x27;".data
  else [c]

/-- Action of html.escape on a string. -/
def htmlEscape (s : String) : String :=
  String.mk (s.data.flatMap escChar)

/-- The mention_html method of a telegram User: an anchor to
tg://user?id={id} whose text is the HTML-escaped full name. -/
def User.mention_html (u : User) : String :=
  "<a href=" ++ dq ++ "tg://user?id=" ++ toString u.id ++
  dq ++ ">" ++ htmlEscape u.full_name ++ "</a>"

/-- The greeting text sent by start (src/main.py lines 48-51). -/
def startGreeting (u : User) : String :=
  "Hi " ++ u.mention_html ++ "! I" ++ sq ++ "m a bot powered by a local Ollama model. " ++
  "Just send me a message and I" ++ sq ++ "ll respond."

/-- The start handler (src/main.py lines 45-51) as a trace: one HTML
reply, no other effect. -/
def start (u : User) : List Action :=
  [Action.replyHtml (startGreeting u)]

/-- Substring test: pat occurs contiguously inside s. -/
def StrContains (s pat : String) : Prop :=
  pat.data <:+: s.data

instance (s pat : String) : Decidable (StrContains s pat) :=
  List.decidableInfix pat.data s.data

lemma strContains_mid (a b c : String) : StrContains (a ++ b ++ c) b :=
  ⟨a.data, c.data, by simp [String.data_append]⟩

lemma replies_handleOutcome (env : Env) (net : HttpResult) :
    (replies (handleOutcome env net)).length = 1 := by
  rcases net with _ | ⟨status, reason, body⟩ | e
  · rfl
  · simp only [handleOutcome]
    by_cases hr : raisesForStatus status = true
    · rw [if_pos hr]; rfl
    · rw [if_neg hr]
      rcases body with e2 | b
      · rfl
      · rcases b with _ | _ | _ | _ | _ | fields <;> rfl
  · rfl

/-- Claim C1: for every inbound non-command text message, handle_message
sends exactly one outbound chat reply on every code path: the
configuration-missing branch, the success branch, and each of the three
error branches. -/
theorem C1_exactly_one_reply (env : Env) (msg : InboundMessage) (net : HttpResult) :
    (replies (handle_message env msg net)).length = 1 := by
  simp only [handle_message]
  by_cases hf : pyFalsy (OLLAMA_HOST env) = true
  · simp [hf, replies]
  · simp only [Bool.not_eq_true] at hf
    simp only [hf, Bool.false_eq_true, if_false]
    have h := replies_handleOutcome env net
    simpa [replies] using h

/-- Claim C2: if OLLAMA_HOST is unset, handle_message performs no
network call and replies with the fixed configuration-error text, then
terminates for that message. -/
theorem C2_unset_host_no_call (env : Env) (msg : InboundMessage) (net : HttpResult)
    (h : env.ollamaHostVar = none) :
    handle_message env msg net = [Action.replyText (Json.str configErrorText)] ∧
    countPosts (handle_message env msg net) = 0 := by
  have hf : pyFalsy (OLLAMA_HOST env) = true := by
    simp [pyFalsy, OLLAMA_HOST, h]
  refine ⟨?_, ?_⟩ <;> simp [handle_message, hf, countPosts, isPost]

theorem C2_witness :
    handle_message ⟨none, none⟩ ⟨"hello", 5⟩ HttpResult.connectionError =
      [Action.replyText (Json.str configErrorText)] ∧
    countPosts (handle_message ⟨none, none⟩ ⟨"hello", 5⟩ HttpResult.connectionError) = 0 :=
  C2_unset_host_no_call ⟨none, none⟩ ⟨"hello", 5⟩ HttpResult.connectionError rfl

/-- Claim C3: for every successful 2xx inference response whose JSON
body contains the string field named response, handle_message replies
with that field's value verbatim. -/
theorem C3_success_verbatim (env : Env) (msg : InboundMessage) (status : Nat)
    (reason : String) (fields : List (String × Json)) (v : String)
    (hhost : pyFalsy (OLLAMA_HOST env) = false)
    (h2 : 200 ≤ status) (h3 : status < 300)
    (hresp : jsonLookup fields "response" = some (Json.str v)) :
    replies (handle_message env msg
        (HttpResult.response status reason (Except.ok (Json.obj fields)))) =
      [Json.str v] := by
  have hr : raisesForStatus status = false := by
    simp only [raisesForStatus, Bool.and_eq_false_iff, decide_eq_false_iff_not, not_le, not_lt]
    omega
  simp [handle_message, hhost, handleOutcome, hr, replies, hresp]

theorem C3_witness :
    replies (handle_message ⟨some "http://localhost:11434", none⟩ ⟨"hi", 1⟩
        (HttpResult.response 200 "OK"
          (Except.ok (Json.obj [("response", Json.str "Hello!")])))) =
      [Json.str "Hello!"] :=
  C3_success_verbatim ⟨some "http://localhost:11434", none⟩ ⟨"hi", 1⟩ 200 "OK"
    [("response", Json.str "Hello!")] "Hello!" (by decide) (by decide) (by decide) rfl

/-- Claim C4: for every successful 2xx inference response whose JSON
body lacks a response field, handle_message replies with exactly the
fixed fallback string "No response from model.". -/
theorem C4_fallback_when_absent (env : Env) (msg : InboundMessage) (status : Nat)
    (reason : String) (fields : List (String × Json))
    (hhost : pyFalsy (OLLAMA_HOST env) = false)
    (h2 : 200 ≤ status) (h3 : status < 300)
    (hresp : jsonLookup fields "response" = none) :
    replies (handle_message env msg
        (HttpResult.response status reason (Except.ok (Json.obj fields)))) =
      [Json.str "No response from model."] := by
  have hr : raisesForStatus status = false := by
    simp only [raisesForStatus, Bool.and_eq_false_iff, decide_eq_false_iff_not, not_le, not_lt]
    omega
  simp [handle_message, hhost, handleOutcome, hr, replies, hresp, noResponseText]

theorem C4_witness :
    replies (handle_message ⟨some "http://localhost:11434", none⟩ ⟨"hi", 1⟩
        (HttpResult.response 200 "OK"
          (Except.ok (Json.obj [("done", Json.bool true)])))) =
      [Json.str "No response from model."] :=
  C4_fallback_when_absent ⟨some "http://localhost:11434", none⟩ ⟨"hi", 1⟩ 200 "OK"
    [("done", Json.bool true)] (by decide) (by decide) (by decide) rfl

/-- Claim C10: if a successful 2xx response body has a response key
whose value is any JSON value, handle_message passes that value through
unchanged to the reply call; the fallback applies only when the key is
absent, and no type check or conversion is performed. -/
theorem C10_passthrough_any_value (env : Env) (msg : InboundMessage) (status : Nat)
    (reason : String) (fields : List (String × Json)) (v : Json)
    (hhost : pyFalsy (OLLAMA_HOST env) = false)
    (h2 : 200 ≤ status) (h3 : status < 300)
    (hresp : jsonLookup fields "response" = some v) :
    replies (handle_message env msg
        (HttpResult.response status reason (Except.ok (Json.obj fields)))) =
      [v] := by
  have hr : raisesForStatus status = false := by
    simp only [raisesForStatus, Bool.and_eq_false_iff, decide_eq_false_iff_not, not_le, not_lt]
    omega
  simp [handle_message, hhost, handleOutcome, hr, replies, hresp]

theorem C10_witness :
    replies (handle_message ⟨some "http://localhost:11434", none⟩ ⟨"hi", 1⟩
        (HttpResult.response 200 "OK"
          (Except.ok (Json.obj [("response", Json.null)])))) =
      [Json.null] :=
  C10_passthrough_any_value ⟨some "http://localhost:11434", none⟩ ⟨"hi", 1⟩ 200 "OK"
    [("response", Json.null)] Json.null (by decide) (by decide) (by decide) rfl

/-- Claim C5 as stated is false.  The source guards the success path
with raise_for_status, which raises only for 4xx and 5xx codes, while
the spec calls every non-2xx status a non-success: a final 304 response
raises nothing, so its body IS parsed and the reply is the parsed
response field, not the ServerError-category message. -/
theorem C5_counterexample :
    ¬ (∀ (env : Env) (msg : InboundMessage) (status : Nat) (reason : String)
          (body : Except String Json),
        pyFalsy (OLLAMA_HOST env) = false →
        ¬ (200 ≤ status ∧ status < 300) →
        replies (handle_message env msg (HttpResult.response status reason body)) =
          [Json.str ("HTTP error from Ollama server: " ++
            httpErrorString status reason (OLLAMA_GENERATE_ENDPOINT env))]) := by
  intro hclaim
  have heq := hclaim ⟨some "http://h", none⟩ ⟨"hi", 1⟩ 304 "Not Modified"
      (Except.ok (Json.obj [("response", Json.str "cached")]))
      (by decide) (by decide)
  have hval : replies (handle_message ⟨some "http://h", none⟩ ⟨"hi", 1⟩
      (HttpResult.response 304 "Not Modified"
        (Except.ok (Json.obj [("response", Json.str "cached")])))) =
      [Json.str "cached"] := rfl
  rw [hval] at heq
  simp only [List.cons.injEq, Json.str.injEq, and_true] at heq
  exact absurd heq (by decide)

/-- Claim C5, amended: for every HTTP response whose status code is in
the 4xx or 5xx range (the codes raise_for_status raises on),
handle_message treats it as an HTTP failure whose handling is
independent of the response body (no parsing), replies with the
ServerError message that contains the status code, and the loop keeps
serving subsequent messages.  A non-2xx status outside 400-599, such as
304, instead falls through to body parsing. -/
theorem C5_http_error (env : Env) (msg : InboundMessage) (status : Nat)
    (reason : String) (body body2 : Except String Json)
    (rest : List (InboundMessage × HttpResult))
    (hhost : pyFalsy (OLLAMA_HOST env) = false)
    (h4 : 400 ≤ status) (h6 : status < 600) :
    replies (handle_message env msg (HttpResult.response status reason body)) =
      [Json.str ("HTTP error from Ollama server: " ++
        httpErrorString status reason (OLLAMA_GENERATE_ENDPOINT env))] ∧
    handle_message env msg (HttpResult.response status reason body) =
      handle_message env msg (HttpResult.response status reason body2) ∧
    StrContains ("HTTP error from Ollama server: " ++
        httpErrorString status reason (OLLAMA_GENERATE_ENDPOINT env))
      (toString status) ∧
    processAll env ((msg, HttpResult.response status reason body) :: rest) =
      handle_message env msg (HttpResult.response status reason body) ::
        processAll env rest := by
  have hr : raisesForStatus status = true := by
    simp only [raisesForStatus, Bool.and_eq_true, decide_eq_true_eq]
    omega
  refine ⟨?_, ?_, ?_, rfl⟩
  · simp [handle_message, hhost, handleOutcome, hr, replies]
  · simp [handle_message, hhost, handleOutcome, hr]
  · show (toString status).data <:+: _
    unfold httpErrorString
    by_cases hc : (400 ≤ status && status < 500) = true
    · rw [if_pos hc]
      exact ⟨("HTTP error from Ollama server: ").data,
        (" Client Error: " ++ reason ++ " for url: " ++ OLLAMA_GENERATE_ENDPOINT env).data,
        by simp [String.data_append]⟩
    · rw [if_neg hc]
      exact ⟨("HTTP error from Ollama server: ").data,
        (" Server Error: " ++ reason ++ " for url: " ++ OLLAMA_GENERATE_ENDPOINT env).data,
        by simp [String.data_append]⟩

theorem C5_witness :
    replies (handle_message ⟨some "http://h", none⟩ ⟨"hi", 1⟩
        (HttpResult.response 500 "Internal Server Error" (Except.ok Json.null))) =
      [Json.str ("HTTP error from Ollama server: " ++
        httpErrorString 500 "Internal Server Error"
          (OLLAMA_GENERATE_ENDPOINT ⟨some "http://h", none⟩))] ∧
    handle_message ⟨some "http://h", none⟩ ⟨"hi", 1⟩
        (HttpResult.response 500 "Internal Server Error" (Except.ok Json.null)) =
      handle_message ⟨some "http://h", none⟩ ⟨"hi", 1⟩
        (HttpResult.response 500 "Internal Server Error" (Except.error "boom")) ∧
    StrContains ("HTTP error from Ollama server: " ++
        httpErrorString 500 "Internal Server Error"
          (OLLAMA_GENERATE_ENDPOINT ⟨some "http://h", none⟩))
      (toString 500) ∧
    processAll ⟨some "http://h", none⟩
        ((⟨"hi", 1⟩, HttpResult.response 500 "Internal Server Error" (Except.ok Json.null)) ::
          [(⟨"next", 2⟩, HttpResult.connectionError)]) =
      handle_message ⟨some "http://h", none⟩ ⟨"hi", 1⟩
          (HttpResult.response 500 "Internal Server Error" (Except.ok Json.null)) ::
        processAll ⟨some "http://h", none⟩ [(⟨"next", 2⟩, HttpResult.connectionError)] :=
  C5_http_error ⟨some "http://h", none⟩ ⟨"hi", 1⟩ 500 "Internal Server Error"
    (Except.ok Json.null) (Except.error "boom")
    [(⟨"next", 2⟩, HttpResult.connectionError)] (by decide) (by decide) (by decide)

/-- Claim C6: for every connection-level failure, handle_message replies
with a message that names the configured base address and suggests
checking that the server is running; the handler is a total function, so
it returns normally. -/
theorem C6_connection_failure (env : Env) (msg : InboundMessage) (h : String)
    (hh : env.ollamaHostVar = some h) (hne : h ≠ "") :
    replies (handle_message env msg HttpResult.connectionError) =
      [Json.str ("Could not connect to the Ollama server at " ++ h ++
        ". Please make sure it is running and accessible.")] ∧
    StrContains ("Could not connect to the Ollama server at " ++ h ++
        ". Please make sure it is running and accessible.") h := by
  have hf : pyFalsy (some h) = false := by
    simp [pyFalsy, hne]
  refine ⟨?_, strContains_mid _ h _⟩
  simp [handle_message, hf, handleOutcome, replies, OLLAMA_HOST, hh, pyStr]

theorem C6_witness :
    replies (handle_message ⟨some "http://localhost:11434", none⟩ ⟨"hi", 9⟩
        HttpResult.connectionError) =
      [Json.str ("Could not connect to the Ollama server at " ++ "http://localhost:11434" ++
        ". Please make sure it is running and accessible.")] ∧
    StrContains ("Could not connect to the Ollama server at " ++ "http://localhost:11434" ++
        ". Please make sure it is running and accessible.") "http://localhost:11434" :=
  C6_connection_failure ⟨some "http://localhost:11434", none⟩ ⟨"hi", 9⟩
    "http://localhost:11434" rfl (by decide)

/-- Claim C7: handling is stateless across messages: in any serving
sequence, the same inbound message with the same external behaviour
produces the same reply trace wherever and however often it occurs, and
each message's trace is computed independently of the others. -/
theorem C7_stateless (env : Env) (pre post : List (InboundMessage × HttpResult))
    (m : InboundMessage) (net : HttpResult) :
    processAll env (pre ++ (m, net) :: (m, net) :: post) =
      processAll env pre ++ handle_message env m net ::
        handle_message env m net :: processAll env post := by
  simp [processAll]

/-- Claim C8: the model identifier defaults to the literal "llama3"
when its environment variable is absent; the derived endpoint URL is
the base address followed by the fixed suffix "/api/generate"; and when
the base address is unset the derived URL is the malformed
null-concatenated "None/api/generate" — the resolver is a total
function that raises no error, absence being detected only by the
request-time guard of handle_message. -/
theorem C8_config_resolution (env : Env) :
    (env.ollamaModelVar = none → OLLAMA_MODEL env = "llama3") ∧
    (∀ h, env.ollamaHostVar = some h →
      OLLAMA_GENERATE_ENDPOINT env = h ++ "/api/generate") ∧
    (env.ollamaHostVar = none →
      OLLAMA_GENERATE_ENDPOINT env = "None" ++ "/api/generate") := by
  refine ⟨?_, ?_, ?_⟩
  · intro hm
    simp [OLLAMA_MODEL, hm]
  · intro h hh
    simp [OLLAMA_GENERATE_ENDPOINT, OLLAMA_HOST, hh, pyStr]
  · intro hh
    simp [OLLAMA_GENERATE_ENDPOINT, OLLAMA_HOST, hh, pyStr]

theorem C8_witness :
    OLLAMA_MODEL ⟨some "http://x", none⟩ = "llama3" ∧
    OLLAMA_GENERATE_ENDPOINT ⟨some "http://x", none⟩ = "http://x" ++ "/api/generate" ∧
    OLLAMA_GENERATE_ENDPOINT ⟨none, none⟩ = "None" ++ "/api/generate" :=
  ⟨(C8_config_resolution ⟨some "http://x", none⟩).1 rfl,
   (C8_config_resolution ⟨some "http://x", none⟩).2.1 "http://x" rfl,
   (C8_config_resolution ⟨none, none⟩).2.2 rfl⟩

lemma htmlEscape_data_append (a b : String) :
    (htmlEscape (a ++ b)).data = (htmlEscape a).data ++ (htmlEscape b).data := by
  simp [htmlEscape, String.data_append]

lemma htmlEscape_alice : htmlEscape "Alice" = "Alice" := by decide

/-- Claim C9: the start entry point, invoked for a user whose first
name is "Alice" (any last name, any id), sends exactly its one greeting
reply, whose text contains "Alice", and performs no call to the
inference endpoint. -/
theorem C9_start_greets_alice (last : Option String) (uid : Int) :
    start ⟨"Alice", last, uid⟩ = [Action.replyHtml (startGreeting ⟨"Alice", last, uid⟩)] ∧
    StrContains (startGreeting ⟨"Alice", last, uid⟩) "Alice" ∧
    countPosts (start ⟨"Alice", last, uid⟩) = 0 := by
  refine ⟨rfl, ?_, rfl⟩
  have hesc : ∃ t : List Char,
      (htmlEscape (User.full_name ⟨"Alice", last, uid⟩)).data = "Alice".data ++ t := by
    cases last with
    | none =>
        refine ⟨[], ?_⟩
        have : User.full_name ⟨"Alice", none, uid⟩ = "Alice" := rfl
        rw [this, htmlEscape_alice]
        simp
    | some l =>
        refine ⟨(htmlEscape " ").data ++ (htmlEscape l).data, ?_⟩
        have : User.full_name ⟨"Alice", some l, uid⟩ = "Alice" ++ " " ++ l := rfl
        rw [this, htmlEscape_data_append, htmlEscape_data_append, htmlEscape_alice]
        simp
  obtain ⟨t, ht⟩ := hesc
  show ("Alice").data <:+: _
  refine ⟨("Hi " ++ "<a href=" ++ dq ++ "tg://user?id=" ++ toString uid ++ dq ++ ">").data,
    t ++ ("</a>" ++ "! I" ++ sq ++ "m a bot powered by a local Ollama model. " ++
      "Just send me a message and I" ++ sq ++ "ll respond.").data, ?_⟩
  simp only [startGreeting, User.mention_html, String.data_append, List.append_assoc, ht]

end TelBot
